import Mathlib

/-!
Verification model of the pjlink-bridge PJLink server library.

All definitions below are shallow embeddings of the Rust code in
src/src/lib.rs of the mateusmeyer/pjlink-bridge repository.  Bytes are
modelled as Nat (the Rust code uses u8; every byte handled here stays
below 256), byte vectors as List Nat, and fallible code (Rust panics on
out-of-bounds indexing) as Option / explicit crash results.
-/

/-- Header byte of every PJLink line, the percent sign (lib.rs line 43). -/
def PJLINK_HEADER : Nat := 37

/-- Command separator, the space byte 0x20 (lib.rs line 51). -/
def PJLINK_COMMAND_SEPARATOR : Nat := 32

/-- Response separator, the equals sign 0x3d (lib.rs line 59). -/
def PJLINK_RESPONSE_SEPARATOR : Nat := 61

/-- Terminator byte, carriage return 0x0d (lib.rs line 63). -/
def PJLINK_TERMINATOR : Nat := 13

/-- Query byte, the question mark (lib.rs line 71). -/
def PJLINK_QUERY : Nat := 63

/-- ASCII bytes of a string; all strings used in the model are pure ASCII. -/
def asciiBytes (s : String) : List Nat := s.toList.map Char.toNat

/-- The broadcast search message including its terminator (lib.rs line 95). -/
def PJLINK_BROADCAST_SEARCH_START : List Nat := asciiBytes "%2SRCH" ++ [PJLINK_TERMINATOR]

/-- Command body of the acknowledge broadcast response (lib.rs line 103). -/
def PJLINK_BROADCAST_MESSAGE_ACKN : List Nat := asciiBytes "2ACKN"

/-- Fixed receive buffer size of the UDP worker (lib.rs line 142). -/
def PJLINK_MAX_BROADCAST_BUFFER_SIZE : Nat := 25

/-- Successful-execution response parameter (lib.rs line 148). -/
def PJLINK_RESPONSE_TRANSMISSION_PARAMETER_OK : List Nat := asciiBytes "OK"

/-- Undefined-command response parameter (lib.rs line 153). -/
def PJLINK_RESPONSE_TRANSMISSION_PARAMETER_ERR1 : List Nat := asciiBytes "ERR1"

/-- Out-of-parameter response parameter (lib.rs line 158). -/
def PJLINK_RESPONSE_TRANSMISSION_PARAMETER_ERR2 : List Nat := asciiBytes "ERR2"

/-- Unavailable-time response parameter (lib.rs line 164). -/
def PJLINK_RESPONSE_TRANSMISSION_PARAMETER_ERR3 : List Nat := asciiBytes "ERR3"

/-- Projector/display-failure response parameter.  The source at lib.rs
line 170 assigns this constant the literal bytes of the string ERR3, not
ERR4; the model reproduces that assignment exactly. -/
def PJLINK_RESPONSE_TRANSMISSION_PARAMETER_ERR4 : List Nat := asciiBytes "ERR3"

/-- The raw payload record of lib.rs lines 233-241: 5-byte command body with
class digit, one separator byte, and the transmission parameter bytes.
Header and terminator are wire framing and are not stored. -/
structure PjLinkRawPayload where
  command_body_with_class : List Nat
  separator : Nat
  transmission_parameter : List Nat
deriving DecidableEq, Repr

/-- PjLinkRawPayload::from_buffer (lib.rs lines 285-306).  The Rust code
performs no header check at all: it slices buffer[7..len], buffer[1..6] and
buffer[6] unconditionally.  Those slices panic when the buffer is shorter
than 7 bytes; the panic is modelled as none.  For buffers of length at
least 7 every byte, including a non-percent first byte, is accepted. -/
def from_buffer (buffer : List Nat) : Option PjLinkRawPayload :=
  if 7 ≤ buffer.length then
    some { command_body_with_class := (buffer.drop 1).take 5
           separator := (buffer.drop 6).headD 0
           transmission_parameter := buffer.drop 7 }
  else none

/-- The response algebra of lib.rs lines 349-391. -/
inductive PjLinkResponse where
  | Ok
  | Undefined
  | OutOfParameter
  | UnavailableTime
  | ProjectorOrDisplayFailure
  | Single (b : Nat)
  | Multiple (v : List Nat)
  | Empty
deriving DecidableEq, Repr

/-- PjLinkRawPayload::update_with_response (lib.rs lines 314-341): keeps the
command body of the request, switches the separator to the response
separator and renders the response into parameter bytes using the constant
vectors above (so ProjectorOrDisplayFailure renders the ERR4 constant,
whose stored bytes are those of ERR3). -/
def update_with_response (c : PjLinkRawPayload) (response : PjLinkResponse) : PjLinkRawPayload :=
  { command_body_with_class := c.command_body_with_class
    separator := PJLINK_RESPONSE_SEPARATOR
    transmission_parameter :=
      match response with
      | .Ok => PJLINK_RESPONSE_TRANSMISSION_PARAMETER_OK
      | .OutOfParameter => PJLINK_RESPONSE_TRANSMISSION_PARAMETER_ERR2
      | .UnavailableTime => PJLINK_RESPONSE_TRANSMISSION_PARAMETER_ERR3
      | .ProjectorOrDisplayFailure => PJLINK_RESPONSE_TRANSMISSION_PARAMETER_ERR4
      | .Undefined => PJLINK_RESPONSE_TRANSMISSION_PARAMETER_ERR1
      | .Single b => [b]
      | .Multiple v => v
      | .Empty => [] }

/-- The From Vec u8 conversion for PjLinkResponse (lib.rs lines 399-422).
The source compares 64-bit DefaultHasher hashes of the incoming vector
against precomputed hashes of the five constant vectors (lib.rs lines
172-203); the hasher is deterministic, so the model renders each hash
comparison as byte-vector equality with the same constant vector,
assuming the hasher is collision-free on the values compared.  The ERR4
constant vector holds the bytes of ERR3 (see above), and the final else
chain of the source tests size greater or equal one before size equal
one, both reproduced verbatim. -/
def response_from_bytes (v : List Nat) : PjLinkResponse :=
  if v = PJLINK_RESPONSE_TRANSMISSION_PARAMETER_OK then .Ok
  else if v = PJLINK_RESPONSE_TRANSMISSION_PARAMETER_ERR1 then .Undefined
  else if v = PJLINK_RESPONSE_TRANSMISSION_PARAMETER_ERR2 then .OutOfParameter
  else if v = PJLINK_RESPONSE_TRANSMISSION_PARAMETER_ERR3 then .UnavailableTime
  else if v = PJLINK_RESPONSE_TRANSMISSION_PARAMETER_ERR4 then .ProjectorOrDisplayFailure
  else if 1 ≤ v.length then .Multiple v
  else if v.length = 1 then .Single (v.headD 0)
  else .Empty

/-- PjLinkConnectionHandler::write_to_buffer (lib.rs lines 1051-1066):
header, body, separator and parameter are concatenated; if the last byte
of that buffer is the zero byte it is replaced in place by the
terminator, otherwise the terminator is appended. -/
def write_to_buffer (raw_response : PjLinkRawPayload) : List Nat :=
  let buffer := PJLINK_HEADER ::
    (raw_response.command_body_with_class ++ raw_response.separator :: raw_response.transmission_parameter)
  if buffer.getLast? = some 0 then buffer.dropLast ++ [PJLINK_TERMINATOR]
  else buffer ++ [PJLINK_TERMINATOR]

/-- Parameters of the 1POWR command (lib.rs lines 425-436). -/
inductive PjLinkPowerCommandParameter where
  | Off
  | On
  | Query
  | Unknown
deriving DecidableEq, Repr

/-- Parameters of the INPT and INNM commands (lib.rs lines 477-487). -/
inductive PjLinkInputCommandParameter where
  | RGB (b : Nat)
  | Video (b : Nat)
  | Digital (b : Nat)
  | Storage (b : Nat)
  | Network (b : Nat)
  | Internal (b : Nat)
  | Query
  | Unknown
deriving DecidableEq, Repr

/-- Parameters of the 1AVMT command (lib.rs lines 509-515). -/
inductive PjLinkMuteCommandParameter where
  | Audio (b : Bool)
  | Video (b : Bool)
  | AudioAndVideo (b : Bool)
  | Query
  | Unknown
deriving DecidableEq, Repr

/-- Parameters of the 2SVOL and 2MVOL commands (lib.rs lines 516-520); the
source spells the decrease case Decrase and the model keeps that name. -/
inductive PjLinkVolumeCommandParameter where
  | Increase
  | Decrase
  | Unknown
deriving DecidableEq, Repr

/-- Parameters of the 2FREZ command (lib.rs lines 529-534). -/
inductive PjLinkFreezeCommandParameter where
  | Freeze
  | Unfreeze
  | Query
  | Unknown
deriving DecidableEq, Repr

/-- The command algebra (lib.rs lines 542-569). -/
inductive PjLinkCommand where
  | Search2
  | Power1 (p : PjLinkPowerCommandParameter)
  | Input1 (p : PjLinkInputCommandParameter)
  | Input2 (p : PjLinkInputCommandParameter)
  | AvMute1 (p : PjLinkMuteCommandParameter)
  | ErrorStatus1
  | Lamp1
  | InputTogglingList1
  | InputTogglingList2
  | Name1
  | InfoManufacturer1
  | InfoProductName1
  | InfoOther1
  | Class1
  | SerialNumber2
  | SoftwareVersion2
  | InputTerminalName2 (p : PjLinkInputCommandParameter)
  | InputResolution2
  | RecommendResolution2
  | FilterUsageTime2
  | LampReplacementModelNumber2
  | FilterReplacementModelNumber2
  | SpeakerVolumeAdjustment2 (p : PjLinkVolumeCommandParameter)
  | MicrophoneVolumeAdjustment2 (p : PjLinkVolumeCommandParameter)
  | Freeze2 (p : PjLinkFreezeCommandParameter)
  | Unknown
deriving DecidableEq, Repr

/-- PjLinkCommand::input_param_parse (lib.rs lines 718-746), the shared
input-kind decoder for INPT and INNM.  The three invalidity tests and the
kind match are transcribed literally; byte literals 49, 57, 65, 90 are
the digits one and nine and the letters A and Z. -/
def input_param_parse (is_class_2 : Bool) (input_char input_value : Nat) :
    PjLinkInputCommandParameter :=
  if input_value < 49
      ∨ (is_class_2 = false ∧ 57 < input_value)
      ∨ (is_class_2 = true ∧ ((57 < input_value ∧ input_value < 65) ∨ 90 < input_value)) then
    .Unknown
  else if input_char = 49 then .RGB input_value
  else if input_char = 50 then .Video input_value
  else if input_char = 51 then .Digital input_value
  else if input_char = 52 then .Storage input_value
  else if input_char = 53 then .Network input_value
  else if input_char = 54 then
    (if is_class_2 then .Internal input_value else .Unknown)
  else .Unknown

/-- PjLinkCommand::from_raw_payload (lib.rs lines 572-716), the command
classifier.  The source first interprets the 5-byte command body as UTF-8
and matches it against string literals, returning Unknown both for
invalid UTF-8 and for unmatched bodies; since all matched literals are
5-byte ASCII strings, the model compares the raw bytes against the ASCII
bytes of those literals, which selects exactly the same branch.  The
1POWR branch of the source indexes transmission_parameter[0] without any
length check and panics on an empty parameter vector; the panic is
modelled as none.  Every other branch checks the parameter length before
indexing and is total. -/
def from_raw_payload (raw_command : PjLinkRawPayload) : Option PjLinkCommand :=
  let tp := raw_command.transmission_parameter
  let body := raw_command.command_body_with_class
  let is_class_2 := body.headD 0 = 50
  let n := tp.length
  if body = asciiBytes "1POWR" then
    match tp.head? with
    | none => none
    | some raw_parameter =>
      some (.Power1 (
        if raw_parameter = 49 then .On
        else if raw_parameter = 48 then .Off
        else if raw_parameter = PJLINK_QUERY then .Query
        else .Unknown))
  else if body = asciiBytes "1INPT" ∨ body = asciiBytes "2INPT" then
    let parameter : PjLinkInputCommandParameter :=
      if n = 1 ∧ tp.headD 0 = PJLINK_QUERY then .Query
      else if n = 2 then
        input_param_parse is_class_2 (tp.headD 0) ((tp.drop 1).headD 0)
      else .Unknown
    some (if is_class_2 then .Input2 parameter else .Input1 parameter)
  else if body = asciiBytes "1AVMT" then
    some (.AvMute1 (
      if n = 1 ∧ tp.headD 0 = PJLINK_QUERY then .Query
      else if n = 2 then
        let a := tp.headD 0
        let b := (tp.drop 1).headD 0
        if a = 49 ∧ b = 49 then .Video true
        else if a = 49 ∧ b = 48 then .Video false
        else if a = 50 ∧ b = 49 then .Audio true
        else if a = 50 ∧ b = 48 then .Audio false
        else if a = 51 ∧ b = 49 then .AudioAndVideo true
        else if a = 51 ∧ b = 48 then .AudioAndVideo false
        else .Unknown
      else .Unknown))
  else if body = asciiBytes "1ERST" then some .ErrorStatus1
  else if body = asciiBytes "1LAMP" then some .Lamp1
  else if body = asciiBytes "1INST" ∨ body = asciiBytes "2INST" then
    some (if is_class_2 then .InputTogglingList2 else .InputTogglingList1)
  else if body = asciiBytes "1NAME" then some .Name1
  else if body = asciiBytes "1INF1" then some .InfoManufacturer1
  else if body = asciiBytes "1INF2" then some .InfoProductName1
  else if body = asciiBytes "1INFO" then some .InfoOther1
  else if body = asciiBytes "1CLSS" then some .Class1
  else if body = asciiBytes "2SNUM" then some .SerialNumber2
  else if body = asciiBytes "2SVER" then some .SoftwareVersion2
  else if body = asciiBytes "2INNM" then
    some (.InputTerminalName2 (
      if n = 3 then
        if tp.headD 0 = PJLINK_QUERY then
          input_param_parse true ((tp.drop 1).headD 0) ((tp.drop 2).headD 0)
        else .Unknown
      else .Unknown))
  else if body = asciiBytes "2IRES" then some .InputResolution2
  else if body = asciiBytes "2RRES" then some .RecommendResolution2
  else if body = asciiBytes "2FILT" then some .FilterUsageTime2
  else if body = asciiBytes "2RLMP" then some .LampReplacementModelNumber2
  else if body = asciiBytes "2RFIL" then some .FilterReplacementModelNumber2
  else if body = asciiBytes "2SVOL" then
    if n = 1 then
      some (.SpeakerVolumeAdjustment2 (
        if tp.headD 0 = 49 then .Increase
        else if tp.headD 0 = 48 then .Decrase
        else .Unknown))
    else some .Unknown
  else if body = asciiBytes "2MVOL" then
    if n = 1 then
      some (.MicrophoneVolumeAdjustment2 (
        if tp.headD 0 = 49 then .Increase
        else if tp.headD 0 = 48 then .Decrase
        else .Unknown))
    else some .Unknown
  else if body = asciiBytes "2FREZ" then
    if n = 1 then
      if tp.headD 0 = PJLINK_QUERY then some (.Freeze2 .Query)
      else some (.Freeze2 (
        if tp.headD 0 = 49 then .Freeze
        else if tp.headD 0 = 48 then .Unfreeze
        else .Unknown))
    else some .Unknown
  else some .Unknown

/-- Truncation to 32 bits, the wrap-around arithmetic of the md5 crate. -/
def m32 (x : Nat) : Nat := x % 4294967296

/-- Left rotation of a 32-bit word. -/
def rotl32 (x s : Nat) : Nat := ((x <<< s) % 4294967296) ||| (x >>> (32 - s))

/-- Per-round shift amounts of MD5 (RFC 1321). -/
def MD5_S : List Nat :=
  [7, 12, 17, 22, 7, 12, 17, 22, 7, 12, 17, 22, 7, 12, 17, 22,
   5, 9, 14, 20, 5, 9, 14, 20, 5, 9, 14, 20, 5, 9, 14, 20,
   4, 11, 16, 23, 4, 11, 16, 23, 4, 11, 16, 23, 4, 11, 16, 23,
   6, 10, 15, 21, 6, 10, 15, 21, 6, 10, 15, 21, 6, 10, 15, 21]

/-- Per-round additive constants of MD5 (RFC 1321). -/
def MD5_K : List Nat :=
  [0xd76aa478, 0xe8c7b756, 0x242070db, 0xc1bdceee,
   0xf57c0faf, 0x4787c62a, 0xa8304613, 0xfd469501,
   0x698098d8, 0x8b44f7af, 0xffff5bb1, 0x895cd7be,
   0x6b901122, 0xfd987193, 0xa679438e, 0x49b40821,
   0xf61e2562, 0xc040b340, 0x265e5a51, 0xe9b6c7aa,
   0xd62f105d, 0x02441453, 0xd8a1e681, 0xe7d3fbc8,
   0x21e1cde6, 0xc33707d6, 0xf4d50d87, 0x455a14ed,
   0xa9e3e905, 0xfcefa3f8, 0x676f02d9, 0x8d2a4c8a,
   0xfffa3942, 0x8771f681, 0x6d9d6122, 0xfde5380c,
   0xa4beea44, 0x4bdecfa9, 0xf6bb4b60, 0xbebfbc70,
   0x289b7ec6, 0xeaa127fa, 0xd4ef3085, 0x04881d05,
   0xd9d4d039, 0xe6db99e5, 0x1fa27cf8, 0xc4ac5665,
   0xf4292244, 0x432aff97, 0xab9423a7, 0xfc93a039,
   0x655b59c3, 0x8f0ccc92, 0xffeff47d, 0x85845dd1,
   0x6fa87e4f, 0xfe2ce6e0, 0xa3014314, 0x4e0811a1,
   0xf7537e82, 0xbd3af235, 0x2ad7d2bb, 0xeb86d391]

/-- MD5 padding: append the 0x80 byte, zero bytes up to 56 modulo 64, and
the original length in bits as eight little-endian bytes. -/
def md5pad (msg : List Nat) : List Nat :=
  msg ++ 128 :: List.replicate ((119 - msg.length % 64) % 64) 0
      ++ (List.range 8).map (fun i => (((msg.length * 8) % 18446744073709551616) >>> (8 * i)) % 256)

/-- Word j of a 64-byte chunk, read little-endian. -/
def md5word (chunk : List Nat) (j : Nat) : Nat :=
  (chunk.drop (4 * j)).headD 0
    + 256 * ((chunk.drop (4 * j + 1)).headD 0)
    + 65536 * ((chunk.drop (4 * j + 2)).headD 0)
    + 16777216 * ((chunk.drop (4 * j + 3)).headD 0)

/-- The MD5 round mixing function for round i. -/
def md5F (i B C D : Nat) : Nat :=
  if i < 16 then (B &&& C) ||| ((B ^^^ 4294967295) &&& D)
  else if i < 32 then (D &&& B) ||| ((D ^^^ 4294967295) &&& C)
  else if i < 48 then B ^^^ C ^^^ D
  else C ^^^ (B ||| (D ^^^ 4294967295))

/-- The MD5 message-word index for round i. -/
def md5g (i : Nat) : Nat :=
  if i < 16 then i
  else if i < 32 then (5 * i + 1) % 16
  else if i < 48 then (3 * i + 5) % 16
  else (7 * i) % 16

/-- One MD5 round on the running state. -/
def md5round (chunk : List Nat) (st : Nat × Nat × Nat × Nat) (i : Nat) :
    Nat × Nat × Nat × Nat :=
  match st with
  | (A, B, C, D) =>
    let Fv := m32 (md5F i B C D + A + (MD5_K.drop i).headD 0 + md5word chunk (md5g i))
    (D, m32 (B + rotl32 Fv ((MD5_S.drop i).headD 0)), B, C)

/-- Processing of one 64-byte chunk. -/
def md5chunk (st : Nat × Nat × Nat × Nat) (chunk : List Nat) : Nat × Nat × Nat × Nat :=
  match st, (List.range 64).foldl (md5round chunk) st with
  | (a0, b0, c0, d0), (A, B, C, D) => (m32 (a0 + A), m32 (b0 + B), m32 (c0 + C), m32 (d0 + D))

/-- Little-endian byte rendering of a 32-bit word. -/
def le4 (w : Nat) : List Nat := [w % 256, (w >>> 8) % 256, (w >>> 16) % 256, (w >>> 24) % 256]

/-- The 16-byte MD5 digest of a byte sequence. -/
def md5Bytes (msg : List Nat) : List Nat :=
  let padded := md5pad msg
  let chunks := (List.range (padded.length / 64)).map (fun i => (padded.drop (64 * i)).take 64)
  match chunks.foldl md5chunk (1732584193, 4023233417, 2562383102, 271733878) with
  | (A, B, C, D) => le4 A ++ le4 B ++ le4 C ++ le4 D

/-- A nibble as a lowercase hexadecimal ASCII byte. -/
def hexDigitByte (n : Nat) : Nat := if n < 10 then 48 + n else 87 + n

/-- The 32 lowercase hexadecimal ASCII bytes of the MD5 digest of a
string, matching the Rust rendering of md5::compute through the
lower-hex formatter (lib.rs line 1181). -/
def md5HexBytes (s : String) : List Nat :=
  ((md5Bytes (asciiBytes s)).map (fun b => [hexDigitByte (b / 16), hexDigitByte (b % 16)])).flatten

/-- Result of PjLinkConnectionHandler::handle_password_hash_response.
errA is the path that writes the PJLINK ERRA line and returns Ok(false),
after which the caller breaks the message loop; ok carries the returned
authentication flag and the possibly drained buffer; crash is the Rust
panic of Vec::drain(0..32) on a buffer shorter than 32 bytes. -/
inductive PjLinkHashResponseResult where
  | errA
  | ok (has_authenticated : Bool) (buffer : List Nat)
  | crash
deriving DecidableEq, Repr

/-- PjLinkConnectionHandler::handle_password_hash_response (lib.rs lines
1152-1206).  When has_authenticated is false the source takes the first
32 bytes only if the buffer is strictly longer than 32 bytes, compares
them with the lowercase hex MD5 of salt concatenated with password, and
on failure writes ERRA and returns Ok(false) without draining; on any
path that ends with the flag set it drains the first 32 bytes.  The
stream and connection id arguments carry no data relevant here and are
omitted; password and salt are the unwrapped Some values the caller
guarantees under use_auth. -/
def handle_password_hash_response (has_authenticated : Bool)
    (input_command_buffer : List Nat) (password password_salt : String) :
    PjLinkHashResponseResult :=
  if has_authenticated = false then
    if 32 < input_command_buffer.length then
      if md5HexBytes (password_salt ++ password) = input_command_buffer.take 32 then
        .ok true (input_command_buffer.drop 32)
      else .errA
    else .errA
  else
    if 32 ≤ input_command_buffer.length then .ok true (input_command_buffer.drop 32)
    else .crash

/-- Outcome of the authentication guard of one message-loop iteration. -/
inductive PjLinkLineOutcome where
  | closeErrA
  | closeNoWrite
  | request (buffer : List Nat)
  | crash
deriving DecidableEq, Repr

/-- The authentication guard of the message loop in
PjLinkConnectionHandler::handle_connection (lib.rs lines 940-961): when
use_auth holds and either the session is not yet authenticated or the
first byte of the received line is not the header byte, the line is fed
to handle_password_hash_response; a false result breaks the loop, a true
result hands the (drained) buffer on to raw-payload parsing.  The Rust
short-circuit of the guard is kept: the first byte is only inspected
when has_authenticated is true, and inspecting it on an empty buffer is
an index panic. -/
def handle_line_auth (use_auth has_authenticated : Bool)
    (password password_salt : String) (input_command_buffer : List Nat) :
    PjLinkLineOutcome :=
  let afterAuth : PjLinkLineOutcome :=
    match handle_password_hash_response has_authenticated input_command_buffer
        password password_salt with
    | .errA => .closeErrA
    | .ok true buffer => .request buffer
    | .ok false _ => .closeNoWrite
    | .crash => .crash
  if use_auth then
    if has_authenticated = false then afterAuth
    else
      match input_command_buffer.head? with
      | none => .crash
      | some b => if b ≠ PJLINK_HEADER then afterAuth else .request input_command_buffer
  else .request input_command_buffer

/-- Events of one connection worker, used to model where the shared
handler mutex is held relative to socket reads and writes. -/
inductive PjLinkEvent where
  | lockAcquire
  | lockRelease
  | handlerPassword
  | handlerCommand
  | sockRead
  | sockWrite
deriving DecidableEq, Repr

/-- Event trace of the greeting phase of handle_connection (lib.rs lines
917-929): the handler mutex is locked, get_password is called, and
handle_password_input writes and then flushes the authentication
prologue on the stream before the lock guard is dropped at the end of
the if-let block. -/
def greeting_phase_trace : List PjLinkEvent :=
  [.lockAcquire, .handlerPassword, .sockWrite, .sockWrite, .lockRelease]

/-- Event trace of one successful iteration of the message loop of
handle_connection (lib.rs lines 931-986): read_command reads the line
outside any lock; the handler mutex is then locked, handle_command runs,
and the response is written and flushed on the stream inside the locked
block before the guard is dropped and the loop continues. -/
def message_loop_trace : List PjLinkEvent :=
  [.sockRead, .lockAcquire, .handlerCommand, .sockWrite, .sockWrite, .lockRelease]

/-- True when some socket read or write event of the trace occurs while
the handler mutex is held. -/
def io_under_lock (trace : List PjLinkEvent) : Bool :=
  (trace.foldl
    (fun st e =>
      match e with
      | .lockAcquire => (true, st.2)
      | .lockRelease => (false, st.2)
      | .sockRead => (st.1, st.2 || st.1)
      | .sockWrite => (st.1, st.2 || st.1)
      | _ => st)
    ((false, false) : Bool × Bool)).2

/-- True when some socket read event of the trace occurs while the
handler mutex is held. -/
def read_under_lock (trace : List PjLinkEvent) : Bool :=
  (trace.foldl
    (fun st e =>
      match e with
      | .lockAcquire => (true, st.2)
      | .lockRelease => (false, st.2)
      | .sockRead => (st.1, st.2 || st.1)
      | _ => st)
    ((false, false) : Bool × Bool)).2

/-- True when the handler mutex is still held after the whole trace. -/
def lock_held_after (trace : List PjLinkEvent) : Bool :=
  trace.foldl
    (fun st e =>
      match e with
      | .lockAcquire => true
      | .lockRelease => false
      | _ => st)
    false

/-- The scan of the UDP worker over its receive buffer (lib.rs lines
1003-1010): bytes are copied into the message until and including the
first terminator byte; if no terminator occurs the whole buffer is the
message and it is not considered valid. -/
def udp_extract : List Nat → List Nat
  | [] => []
  | c :: rest => if c = PJLINK_TERMINATOR then [c] else c :: udp_extract rest

/-- The receive buffer the UDP worker scans (lib.rs lines 991-996): a
vector of 25 zero bytes into which recv_from copies the datagram, so the
datagram is truncated to 25 bytes and shorter datagrams are followed by
the remaining zero fill. -/
def udp_fill_buffer (datagram : List Nat) : List Nat :=
  let received := datagram.take PJLINK_MAX_BROADCAST_BUFFER_SIZE
  received ++ List.replicate (PJLINK_MAX_BROADCAST_BUFFER_SIZE - received.length) 0

/-- The MAC parameter of the acknowledge response (lib.rs lines
1030-1036): the formatted primary-interface MAC address when one is
available, the all-zero placeholder otherwise.  The environment is
modelled as an optional already-formatted string. -/
def mac_parameter : Option String → List Nat
  | some mac => asciiBytes mac
  | none => asciiBytes "00:00:00:00:00:00"

/-- One iteration of PjLinkConnectionHandler::handle_connection_multicast
(lib.rs lines 989-1048) for a received datagram: the buffer is scanned up
to the first terminator, and exactly when the message equals the
broadcast search constant an acknowledge response with the MAC parameter
is serialized through write_to_buffer; every other datagram produces no
reply and the loop continues. -/
def handle_connection_multicast_step (datagram : List Nat) (mac : Option String) :
    Option (List Nat) :=
  let input_command := udp_extract (udp_fill_buffer datagram)
  if input_command = PJLINK_BROADCAST_SEARCH_START then
    some (write_to_buffer
      { command_body_with_class := PJLINK_BROADCAST_MESSAGE_ACKN
        separator := PJLINK_RESPONSE_SEPARATOR
        transmission_parameter := mac_parameter mac })
  else none

/-- A socket address, as far as the model needs it. -/
structure ModelSocketAddr where
  ip : Nat
  port : Nat
deriving DecidableEq, Repr

/-- The destination rewrite of send_multicast_message (lib.rs lines
1087-1116): the reply goes to the datagram origin with its port replaced
by the server's bound local port. -/
def send_multicast_message_dest (message_origin : ModelSocketAddr) (port : Nat) :
    ModelSocketAddr :=
  { ip := message_origin.ip, port := port }

/-- Serialization followed by parsing with the trailing terminator
removed, the round trip of claim C8. -/
def serialize_then_parse (r : PjLinkRawPayload) : Option PjLinkRawPayload :=
  from_buffer (write_to_buffer r).dropLast

/-- C1: evaluation of the rendering stage at the failing response.  For
every request payload, rendering ProjectorOrDisplayFailure through
update_with_response emits the transmission-parameter bytes of ERR3, and
those are not the bytes of ERR4, so the five named response variants are
not mapped to five distinct tokens as the claim requires. -/
theorem c1_projector_failure_renders_err3 :
    (∀ c : PjLinkRawPayload,
      (update_with_response c PjLinkResponse.ProjectorOrDisplayFailure).transmission_parameter
        = asciiBytes "ERR3")
    ∧ asciiBytes "ERR3" ≠ asciiBytes "ERR4" :=
  ⟨fun _ => rfl, by decide⟩

/-- C2: evaluation of the classifier at the failing input.  On the parsed
payload with command body 1POWR and the empty transmission parameter the
source indexes transmission_parameter[0] without a length check, which
panics; the classifier is therefore not a total function on all parsed
payloads. -/
theorem c2_classifier_crashes_on_empty_powr_parameter :
    from_raw_payload
      { command_body_with_class := asciiBytes "1POWR"
        separator := PJLINK_COMMAND_SEPARATOR
        transmission_parameter := [] } = none := by
  decide

/-- C6: evaluation of the byte-vector conversion at the five token
vectors.  OK, ERR1, ERR2 and ERR3 collapse to their named variants, but
the bytes ERR4 fall through to Multiple because the stored ERR4 constant
holds the bytes of ERR3, which the ERR3 test has already claimed. -/
theorem c6_reverse_mapping_misses_err4 :
    response_from_bytes (asciiBytes "OK") = PjLinkResponse.Ok
    ∧ response_from_bytes (asciiBytes "ERR1") = PjLinkResponse.Undefined
    ∧ response_from_bytes (asciiBytes "ERR2") = PjLinkResponse.OutOfParameter
    ∧ response_from_bytes (asciiBytes "ERR3") = PjLinkResponse.UnavailableTime
    ∧ response_from_bytes (asciiBytes "ERR4") = PjLinkResponse.Multiple (asciiBytes "ERR4") := by
  decide

/-- C5 counterexample: in the event trace of one message-loop iteration,
and already in the greeting phase, a socket write occurs while the
handler mutex is held, so the lock is not released before peer I/O as
the claim states. -/
theorem c5_counterexample_write_under_lock :
    io_under_lock message_loop_trace = true
    ∧ io_under_lock greeting_phase_trace = true := by
  decide

/-- C5 amended: the handler mutex is never held across a socket read and
is released by the end of the greeting phase and of every loop
iteration, but the response write and flush (and the greeting prologue
write and flush) happen while it is held. -/
theorem c5_amended_lock_scope :
    read_under_lock greeting_phase_trace = false
    ∧ read_under_lock message_loop_trace = false
    ∧ io_under_lock greeting_phase_trace = true
    ∧ io_under_lock message_loop_trace = true
    ∧ lock_held_after greeting_phase_trace = false
    ∧ lock_held_after message_loop_trace = false := by
  decide

/-- C4 counterexample: a received line of length at least 7 whose first
byte is the letter X instead of the percent header parses without any
framing error; the header byte is never checked by from_buffer, so the
line is handled as a normal request and answered. -/
theorem c4_counterexample_header_not_checked :
    (asciiBytes "X1POWR ?").headD 0 ≠ PJLINK_HEADER
    ∧ from_buffer (asciiBytes "X1POWR ?")
        = some { command_body_with_class := asciiBytes "1POWR"
                 separator := PJLINK_COMMAND_SEPARATOR
                 transmission_parameter := [PJLINK_QUERY] } := by
  decide

/-- C8 counterexample: for the payload with parameter bytes 48, 0, 0 the
serialize-strip-parse round trip drops one trailing zero per
application, so applying it twice differs from applying it once; the
transformation is not idempotent after the first application. -/
theorem c8_counterexample_not_idempotent :
    PJLINK_TERMINATOR ∉ ([48, 0, 0] : List Nat)
    ∧ (serialize_then_parse
        { command_body_with_class := asciiBytes "1POWR"
          separator := PJLINK_RESPONSE_SEPARATOR
          transmission_parameter := [48, 0, 0] }).bind serialize_then_parse
      ≠ serialize_then_parse
        { command_body_with_class := asciiBytes "1POWR"
          separator := PJLINK_RESPONSE_SEPARATOR
          transmission_parameter := [48, 0, 0] } := by
  decide

set_option maxRecDepth 8000 in
/-- C3 counterexample: with salt 01234567 and password JBMIA, the line
consisting of exactly the 32 lowercase hex bytes of the MD5 of salt
followed by password is at least 32 bytes long and its first 32 bytes
equal that hash, yet the source rejects it with PJLINK ERRA because its
length test requires strictly more than 32 bytes. -/
theorem c3_counterexample_exact_hash_line_rejected :
    32 ≤ (md5HexBytes ("01234567" ++ "JBMIA")).length
    ∧ (md5HexBytes ("01234567" ++ "JBMIA")).take 32 = md5HexBytes ("01234567" ++ "JBMIA")
    ∧ handle_password_hash_response false (md5HexBytes ("01234567" ++ "JBMIA"))
        "JBMIA" "01234567" = PjLinkHashResponseResult.errA := by
  decide

/-- C3 amended: on a not-yet-authenticated session the password check of
handle_password_hash_response authenticates, consuming exactly the first
32 bytes and handing the remainder on, if and only if the line is
strictly longer than 32 bytes and its first 32 bytes are the lowercase
hex MD5 of salt concatenated with password; in every other case it
writes the PJLINK ERRA line and the connection is closed. -/
theorem c3_amended_strictly_longer_than_32 (password password_salt : String)
    (buffer : List Nat) :
    (handle_password_hash_response false buffer password password_salt
        = PjLinkHashResponseResult.ok true (buffer.drop 32)
      ↔ 32 < buffer.length
        ∧ buffer.take 32 = md5HexBytes (password_salt ++ password))
    ∧ (¬ (32 < buffer.length
          ∧ buffer.take 32 = md5HexBytes (password_salt ++ password))
        → handle_password_hash_response false buffer password password_salt
            = PjLinkHashResponseResult.errA) := by
  constructor
  · constructor
    · intro h
      by_cases h1 : 32 < buffer.length
      · by_cases h2 : md5HexBytes (password_salt ++ password) = buffer.take 32
        · exact ⟨h1, h2.symm⟩
        · rw [handle_password_hash_response, if_pos rfl, if_pos h1, if_neg h2] at h
          exact absurd h (by simp)
      · rw [handle_password_hash_response, if_pos rfl, if_neg h1] at h
        exact absurd h (by simp)
    · rintro ⟨h1, h2⟩
      rw [handle_password_hash_response, if_pos rfl, if_pos h1, if_pos h2.symm]
  · intro h
    by_cases h1 : 32 < buffer.length
    · by_cases h2 : md5HexBytes (password_salt ++ password) = buffer.take 32
      · exact absurd ⟨h1, h2.symm⟩ h
      · rw [handle_password_hash_response, if_pos rfl, if_pos h1, if_neg h2]
    · rw [handle_password_hash_response, if_pos rfl, if_neg h1]

/-- C3 amended witness at a concrete input: the empty line fails the
amended condition and is rejected with the ERRA write. -/
theorem c3_amended_witness :
    handle_password_hash_response false [] "JBMIA" "01234567"
      = PjLinkHashResponseResult.errA :=
  (c3_amended_strictly_longer_than_32 "JBMIA" "01234567" []).2 (by simp)

/-- C4 amended: raw-payload parsing never inspects the header byte, so
two received lines that differ only in their first byte parse
identically, and every line shorter than 7 bytes makes the slice
operations of from_buffer panic, which kills the worker and closes the
connection without any response bytes being written. -/
theorem c4_amended_no_header_check :
    (∀ (x y : Nat) (rest : List Nat), from_buffer (x :: rest) = from_buffer (y :: rest))
    ∧ (∀ buffer : List Nat, buffer.length < 7 → from_buffer buffer = none) := by
  constructor
  · intro x y rest
    unfold from_buffer
    simp
  · intro buffer h
    unfold from_buffer
    rw [if_neg (by omega)]

/-- C4 amended witness at concrete inputs: the six-byte line consisting
of the header and five body bytes parses to none, and two eight-byte
lines differing only in the first byte parse identically. -/
theorem c4_amended_witness :
    from_buffer (asciiBytes "%1POWR") = none
    ∧ from_buffer (88 :: asciiBytes "1POWR ?") = from_buffer (37 :: asciiBytes "1POWR ?") :=
  ⟨c4_amended_no_header_check.2 (asciiBytes "%1POWR") (by decide),
   c4_amended_no_header_check.1 88 37 (asciiBytes "1POWR ?")⟩

/-- C10: on an auth-enabled session that has already authenticated, a
received line of at least 32 bytes whose first byte is not the header
byte goes through handle_password_hash_response with the authenticated
flag set, which skips the hash comparison entirely, cannot produce the
ERRA write, and drains exactly the first 32 bytes, so the remainder is
what raw-payload parsing receives. -/
theorem c10_authenticated_nonheader_line_drains_32 (password password_salt : String)
    (buffer : List Nat) (b : Nat) (hhead : buffer.head? = some b)
    (hb : b ≠ PJLINK_HEADER) (hlen : 32 ≤ buffer.length) :
    handle_line_auth true true password password_salt buffer
      = PjLinkLineOutcome.request (buffer.drop 32) := by
  unfold handle_line_auth handle_password_hash_response
  rw [hhead]
  simp [hb, hlen]

/-- C10 witness: a 33-byte line of letters a on an authenticated session
is passed on with its first 32 bytes removed and no ERRA results. -/
theorem c10_witness :
    handle_line_auth true true "JBMIA" "01234567" (List.replicate 33 97)
      = PjLinkLineOutcome.request ((List.replicate 33 97).drop 32) :=
  c10_authenticated_nonheader_line_drains_32 "JBMIA" "01234567"
    (List.replicate 33 97) 97 (by decide) (by decide) (by decide)

/-- The input-kind decoding as claim C7 words it: the value byte must be
one of the digits one to nine, or in class 2 one of the uppercase
letters A to Z (so the bytes between the colon and the at sign are
forbidden); kind digits one to six select RGB, Video, Digital, Storage,
Network and Internal, with Internal accepted only in class 2; every
violation yields Unknown.  This definition follows the claim text and is
compared against the source transcription input_param_parse in the C7
theorem below. -/
def input_param_claim (is_class_2 : Bool) (kind value : Nat) :
    PjLinkInputCommandParameter :=
  if ¬ ((49 ≤ value ∧ value ≤ 57) ∨ (is_class_2 = true ∧ 65 ≤ value ∧ value ≤ 90)) then
    .Unknown
  else if kind = 49 then .RGB value
  else if kind = 50 then .Video value
  else if kind = 51 then .Digital value
  else if kind = 52 then .Storage value
  else if kind = 53 then .Network value
  else if kind = 54 then (if is_class_2 then .Internal value else .Unknown)
  else .Unknown

/-- C7: the shared INPT and INNM sub-parameter decoder of the source
agrees with the claim's description on every class flag, kind byte and
value byte. -/
theorem c7_input_param_parse_matches_claim :
    ∀ (is_class_2 : Bool) (kind value : Nat),
      input_param_parse is_class_2 kind value = input_param_claim is_class_2 kind value := by
  intro c k v
  cases c <;>
    simp only [input_param_parse, input_param_claim, Bool.false_eq_true, Bool.true_eq_false,
      eq_self_iff_true, true_and, false_and, and_false, and_true, or_false, false_or,
      if_false, if_true, not_or, not_and, not_lt, not_le] <;>
    split_ifs <;> first | rfl | omega

/-- Parsing a buffer that consists of one head byte, a 5-byte body, a
separator and a parameter recovers body, separator and parameter; the
head byte is ignored by from_buffer. -/
theorem from_buffer_cons_append (h : Nat) (body : List Nat) (sep : Nat)
    (param : List Nat) (hbody : body.length = 5) :
    from_buffer (h :: (body ++ sep :: param))
      = some { command_body_with_class := body
               separator := sep
               transmission_parameter := param } := by
  unfold from_buffer
  rw [if_pos (by simp [hbody]; omega)]
  have e1 : (h :: (body ++ sep :: param)).drop 1 = body ++ sep :: param := rfl
  have e2 : (h :: (body ++ sep :: param)).drop 6 = (body ++ sep :: param).drop 5 := rfl
  have e3 : (h :: (body ++ sep :: param)).drop 7 = (body ++ sep :: param).drop 6 := rfl
  have e5 : (body ++ sep :: param).drop 5 = sep :: param := List.drop_left' hbody
  have e6 : (body ++ sep :: param).drop 6 = param := by
    have := List.drop_drop 1 5 (body ++ sep :: param)
    rw [e5] at this
    simpa using this.symm
  rw [e1, e2, e3, e5, e6, List.take_left' hbody, List.headD_cons]

/-- C8 amended: for every payload with a 5-byte command body and no
terminator byte in its transmission parameter (and a nonzero separator
when the parameter is empty), serializing and then parsing the wire
bytes with the trailing terminator removed returns the payload unchanged
when the parameter does not end in the zero byte, and returns it with
exactly that one trailing zero byte removed when it does; one trailing
zero is lost per application, so the round trip is the identity once the
parameter no longer ends in zero. -/
theorem c8_amended_roundtrip (r : PjLinkRawPayload)
    (hbody : r.command_body_with_class.length = 5)
    (_hterm : PJLINK_TERMINATOR ∉ r.transmission_parameter)
    (hsep : r.transmission_parameter = [] → r.separator ≠ 0) :
    serialize_then_parse r
      = some { command_body_with_class := r.command_body_with_class
               separator := r.separator
               transmission_parameter :=
                 if r.transmission_parameter.getLast? = some 0
                 then r.transmission_parameter.dropLast
                 else r.transmission_parameter } := by
  obtain ⟨body, sep, param⟩ := r
  simp only at hbody hsep ⊢
  rcases List.eq_nil_or_concat param with hnil | ⟨ps, b, hps⟩
  · subst hnil
    have hs : sep ≠ 0 := hsep rfl
    unfold serialize_then_parse write_to_buffer
    simp only
    have hbuf : PJLINK_HEADER :: (body ++ sep :: ([] : List Nat))
        = (PJLINK_HEADER :: body) ++ [sep] := by simp
    rw [hbuf, List.getLast?_concat]
    rw [if_neg (by simpa using hs)]
    rw [List.dropLast_concat, ← hbuf]
    rw [from_buffer_cons_append PJLINK_HEADER body sep [] hbody]
    simp
  · rw [List.concat_eq_append] at hps
    subst hps
    have hbuf : PJLINK_HEADER :: (body ++ sep :: (ps ++ [b]))
        = (PJLINK_HEADER :: (body ++ sep :: ps)) ++ [b] := by simp
    unfold serialize_then_parse write_to_buffer
    simp only
    rw [hbuf, List.getLast?_concat]
    by_cases hb : b = 0
    · subst hb
      rw [if_pos rfl, List.dropLast_concat, List.dropLast_concat]
      rw [from_buffer_cons_append PJLINK_HEADER body sep ps hbody]
      rw [List.getLast?_concat, if_pos rfl, List.dropLast_concat]
    · rw [if_neg (by simpa using hb), List.dropLast_concat, ← hbuf]
      rw [from_buffer_cons_append PJLINK_HEADER body sep (ps ++ [b]) hbody]
      rw [List.getLast?_concat, if_neg (by simpa using hb)]

/-- C8 amended witness: a concrete payload whose parameter does not end
in zero round-trips to itself. -/
theorem c8_amended_witness :
    serialize_then_parse
      { command_body_with_class := asciiBytes "1POWR"
        separator := PJLINK_RESPONSE_SEPARATOR
        transmission_parameter := [48] }
      = some { command_body_with_class := asciiBytes "1POWR"
               separator := PJLINK_RESPONSE_SEPARATOR
               transmission_parameter :=
                 if ([48] : List Nat).getLast? = some 0
                 then ([48] : List Nat).dropLast
                 else [48] } :=
  c8_amended_roundtrip
    { command_body_with_class := asciiBytes "1POWR"
      separator := PJLINK_RESPONSE_SEPARATOR
      transmission_parameter := [48] }
    (by decide) (by decide) (by decide)

/-- Scanning for the first terminator yields a given terminator-free
sequence followed by the terminator exactly when that sequence followed
by the terminator is the corresponding prefix of the input. -/
theorem udp_extract_take_iff :
    ∀ p : List Nat, PJLINK_TERMINATOR ∉ p →
      ∀ d : List Nat,
        udp_extract d = p ++ [PJLINK_TERMINATOR]
          ↔ d.take (p.length + 1) = p ++ [PJLINK_TERMINATOR] := by
  intro p
  induction p with
  | nil =>
    intro _ d
    cases d with
    | nil => simp [udp_extract]
    | cons a rest =>
      by_cases ha : a = PJLINK_TERMINATOR
      · subst ha
        simp [udp_extract]
      · simp [udp_extract, ha]
  | cons q p ih =>
    intro hp d
    have hq : (PJLINK_TERMINATOR : Nat) ≠ q := by
      intro h
      exact hp (h ▸ List.mem_cons_self q p)
    have hp' : PJLINK_TERMINATOR ∉ p := fun h => hp (List.mem_cons_of_mem q h)
    cases d with
    | nil => simp [udp_extract]
    | cons a rest =>
      by_cases ha : a = PJLINK_TERMINATOR
      · subst ha
        simp [udp_extract, hq]
      · simp [udp_extract, ha, List.cons_append, List.cons.injEq, ih hp' rest]

/-- The message scan finds the broadcast search message exactly when it
is the 7-byte prefix of the scanned buffer. -/
theorem udp_extract_srch_iff (d : List Nat) :
    udp_extract d = PJLINK_BROADCAST_SEARCH_START
      ↔ d.take 7 = PJLINK_BROADCAST_SEARCH_START := by
  have h := udp_extract_take_iff (asciiBytes "%2SRCH") (by decide) d
  have hl : (asciiBytes "%2SRCH").length + 1 = 7 := by decide
  rw [hl] at h
  exact h

/-- Zero-filling the 25-byte receive buffer neither creates nor destroys
a broadcast-search prefix. -/
theorem udp_fill_srch_iff (d : List Nat) :
    (udp_fill_buffer d).take 7 = PJLINK_BROADCAST_SEARCH_START
      ↔ d.take 7 = PJLINK_BROADCAST_SEARCH_START := by
  unfold udp_fill_buffer PJLINK_MAX_BROADCAST_BUFFER_SIZE
  by_cases h : 7 ≤ d.length
  · have h25 : 7 ≤ (d.take 25).length := by rw [List.length_take]; omega
    rw [List.take_append_of_le_length h25, List.take_take]
    norm_num
  · have hd : d.take 25 = d := List.take_of_length_le (by omega)
    rw [hd]
    constructor
    · intro hcontra
      exfalso
      rw [List.take_append_eq_append_take, List.take_of_length_le (by omega),
        List.take_replicate] at hcontra
      have hmin : (7 - d.length) ⊓ (25 - d.length) = (7 - d.length - 1) + 1 := by omega
      rw [hmin, List.replicate_succ', ← List.append_assoc] at hcontra
      have hlast := congrArg List.getLast? hcontra
      rw [List.getLast?_concat] at hlast
      have : PJLINK_BROADCAST_SEARCH_START.getLast? = some PJLINK_TERMINATOR := by decide
      rw [this] at hlast
      simp [PJLINK_TERMINATOR] at hlast
    · intro hcontra
      exfalso
      have hlen := congrArg List.length hcontra
      have : PJLINK_BROADCAST_SEARCH_START.length = 7 := by decide
      rw [this, List.length_take] at hlen
      omega

/-- Serialization of the acknowledge response: header, 2ACKN body,
response separator, MAC bytes and terminator, provided the MAC bytes do
not end in the zero byte. -/
theorem write_ackn_eq (macp : List Nat) (hlast : macp.getLast? ≠ some 0) :
    write_to_buffer
      { command_body_with_class := PJLINK_BROADCAST_MESSAGE_ACKN
        separator := PJLINK_RESPONSE_SEPARATOR
        transmission_parameter := macp }
      = asciiBytes "%2ACKN=" ++ macp ++ [PJLINK_TERMINATOR] := by
  unfold write_to_buffer
  simp only
  have hbuf : PJLINK_HEADER ::
      (PJLINK_BROADCAST_MESSAGE_ACKN ++ PJLINK_RESPONSE_SEPARATOR :: macp)
      = asciiBytes "%2ACKN=" ++ macp := by
    rw [List.append_cons, ← List.cons_append]
    rw [show PJLINK_HEADER :: (PJLINK_BROADCAST_MESSAGE_ACKN ++ [PJLINK_RESPONSE_SEPARATOR])
      = asciiBytes "%2ACKN=" from by decide]
  rw [hbuf]
  rcases List.eq_nil_or_concat macp with hnil | ⟨ps, b, hps⟩
  · subst hnil
    rw [if_neg (by decide)]
  · rw [List.concat_eq_append] at hps
    subst hps
    rw [← List.append_assoc, List.getLast?_concat]
    have hb : b ≠ 0 := by
      intro h
      exact hlast (by rw [List.getLast?_concat, h])
    rw [if_neg (by simpa using hb)]

/-- C9: a reply datagram is produced exactly when the received
datagram's prefix up to and including the first terminator byte is the
broadcast search message; the reply is the header, 2ACKN, the response
separator, the MAC parameter (the all-zero placeholder when no MAC is
available) and the terminator; and the reply destination is the origin
address with its port rewritten to the server's bound port. -/
theorem c9_udp_discovery (datagram : List Nat) (mac : Option String)
    (origin : ModelSocketAddr) (server_port : Nat)
    (hmac : (mac_parameter mac).getLast? ≠ some 0) :
    ((handle_connection_multicast_step datagram mac).isSome
        ↔ udp_extract datagram = PJLINK_BROADCAST_SEARCH_START)
    ∧ (udp_extract datagram = PJLINK_BROADCAST_SEARCH_START
        → handle_connection_multicast_step datagram mac
            = some (asciiBytes "%2ACKN=" ++ mac_parameter mac ++ [PJLINK_TERMINATOR]))
    ∧ send_multicast_message_dest origin server_port
        = { ip := origin.ip, port := server_port } := by
  have hcond : (udp_extract (udp_fill_buffer datagram) = PJLINK_BROADCAST_SEARCH_START)
      ↔ udp_extract datagram = PJLINK_BROADCAST_SEARCH_START := by
    rw [udp_extract_srch_iff (udp_fill_buffer datagram), udp_extract_srch_iff datagram]
    exact udp_fill_srch_iff datagram
  refine ⟨?_, ?_, rfl⟩
  · unfold handle_connection_multicast_step
    by_cases hc : udp_extract (udp_fill_buffer datagram) = PJLINK_BROADCAST_SEARCH_START
    · rw [if_pos hc]
      simpa using hcond.mp hc
    · rw [if_neg hc]
      simp only [Option.isSome_none, Bool.false_eq_true, false_iff]
      exact fun h => hc (hcond.mpr h)
  · intro h
    unfold handle_connection_multicast_step
    rw [if_pos (hcond.mpr h)]
    rw [write_ackn_eq (mac_parameter mac) hmac]

/-- C9 witness: the exact search datagram with no MAC available yields
the acknowledge reply with the all-zero MAC, addressed to the origin
with the server port. -/
theorem c9_witness :
    handle_connection_multicast_step (asciiBytes "%2SRCH" ++ [PJLINK_TERMINATOR]) none
      = some (asciiBytes "%2ACKN=" ++ mac_parameter none ++ [PJLINK_TERMINATOR]) :=
  (c9_udp_discovery (asciiBytes "%2SRCH" ++ [PJLINK_TERMINATOR]) none
    { ip := 0, port := 0 } 4352 (by decide)).2.1 (by decide)
